import Mathlib

/-!
Shallow embedding of the TransLink GTFS pipeline (scripts/fetch_realtime.py,
scripts/file_saver.py, scripts/utils.py).

The embedding follows the Python source through the protobuf accessors it
actually uses:

* a sub-message guarded by `HasField` in the source is an `Option` here;
* a sub-message read without a `HasField` guard (protobuf returns a default
  instance for an unset message) is a plain structure field holding the value
  the Python code reads, with the unset case represented by default contents
  (empty strings / empty lists);
* scalar string fields are `String` (unset reads as `""`), the uint64
  `timestamp` is `Nat` (unset reads as `0`), the int64/int32 time and delay
  fields are `Int`;
* latitude/longitude are `Float`, copied verbatim and never computed with;
* Python exceptions become `Except` results.
-/

/-- GTFS-realtime `Position` sub-message: the two fields read by
`PositionsFetcher.to_clean_dict`. -/
structure Position where
  latitude : Float
  longitude : Float

/-- GTFS-realtime `VehicleDescriptor`: only `id` is read. -/
structure VehicleDescriptor where
  id : String

/-- GTFS-realtime `TripDescriptor`: only `trip_id` and `route_id` are read. -/
structure TripDescriptor where
  trip_id : String
  route_id : String

/-- GTFS-realtime `VehiclePosition`.  `position` is `Option` because the source
guards it with `v.HasField("position")`; `vehicle` and `trip` are read without
a guard, so they appear as plain (possibly default-valued) sub-messages.
`timestamp` is the uint64 scalar, `0` when unset. -/
structure VehiclePosition where
  vehicle : VehicleDescriptor
  trip : TripDescriptor
  position : Option Position
  timestamp : Nat

/-- GTFS-realtime `StopTimeEvent`: `time` (int64) and `delay` (int32). -/
structure StopTimeEvent where
  time : Int
  delay : Int

/-- GTFS-realtime `StopTimeUpdate`.  `arrival` and `departure` are guarded with
`HasField` in the source, hence `Option`. -/
structure StopTimeUpdate where
  stop_id : String
  arrival : Option StopTimeEvent
  departure : Option StopTimeEvent

/-- GTFS-realtime `TripUpdate`: the trip descriptor and the repeated
`stop_time_update` field, in stored order. -/
structure TripUpdate where
  trip : TripDescriptor
  stop_time_update : List StopTimeUpdate

/-- One element of a GTFS-realtime `TranslatedString`: only `text` is read. -/
structure Translation where
  text : String

/-- GTFS-realtime `TranslatedString`: the repeated `translation` field. -/
structure TranslatedString where
  translation : List Translation

/-- GTFS-realtime `EntitySelector` as read by the alerts normalizer. -/
structure EntitySelector where
  trip : TripDescriptor
  route_id : String
  stop_id : String

/-- GTFS-realtime `Alert`.  `cause` and `effect` are the integer enum codes as
the Python protobuf API exposes them (`alert.cause` is an `int`). -/
structure Alert where
  cause : Nat
  effect : Nat
  header_text : TranslatedString
  description_text : TranslatedString
  informed_entity : List EntitySelector

/-- GTFS-realtime `FeedEntity`.  In the schema `vehicle`, `trip_update` and
`alert` are three independent optional fields (not a oneof), each tested with
`HasField` by the corresponding normalizer. -/
structure FeedEntity where
  vehicle : Option VehiclePosition
  trip_update : Option TripUpdate
  alert : Option Alert

/-- GTFS-realtime `FeedMessage`: the repeated `entity` field in stored order. -/
structure FeedMessage where
  entity : List FeedEntity

/-- Name table of the GTFS-realtime `Alert.Cause` enumeration, as used by
`gtfs_realtime_pb2.Alert.Cause.Name(code)`.  The Python call raises
`ValueError` on a code outside the table; here that is `none`. -/
def Alert.Cause.Name : Nat → Option String
  | 1 => some "UNKNOWN_CAUSE"
  | 2 => some "OTHER_CAUSE"
  | 3 => some "TECHNICAL_PROBLEM"
  | 4 => some "STRIKE"
  | 5 => some "DEMONSTRATION"
  | 6 => some "ACCIDENT"
  | 7 => some "HOLIDAY"
  | 8 => some "WEATHER"
  | 9 => some "MAINTENANCE"
  | 10 => some "CONSTRUCTION"
  | 11 => some "POLICE_ACTIVITY"
  | 12 => some "MEDICAL_EMERGENCY"
  | _ => none

/-- Name table of the GTFS-realtime `Alert.Effect` enumeration, as used by
`gtfs_realtime_pb2.Alert.Effect.Name(code)`. -/
def Alert.Effect.Name : Nat → Option String
  | 1 => some "NO_SERVICE"
  | 2 => some "REDUCED_SERVICE"
  | 3 => some "SIGNIFICANT_DELAYS"
  | 4 => some "DETOUR"
  | 5 => some "ADDITIONAL_SERVICE"
  | 6 => some "MODIFIED_SERVICE"
  | 7 => some "OTHER_EFFECT"
  | 8 => some "UNKNOWN_EFFECT"
  | 9 => some "STOP_MOVED"
  | 10 => some "NO_EFFECT"
  | 11 => some "ACCESSIBILITY_ISSUE"
  | _ => none

/-- Python's `s or None` on a string field: the empty string (falsy, also what
protobuf returns for an unset string) becomes `none`. -/
def orNone (s : String) : Option String :=
  if s = "" then none else some s

/-- Output record of `PositionsFetcher.to_clean_dict` (one dict in the
`positions` list).  `none` is the JSON `null` the Python code emits. -/
structure PosRecord where
  vehicle_id : Option String
  trip_id : Option String
  route_id : Option String
  lat : Option Float
  lon : Option Float
  timestamp : Option Nat

/-- The record built for one matching entity in the loop body of
`PositionsFetcher.to_clean_dict` (fetch_realtime.py lines 214-223). -/
def PositionsFetcher.cleanVehicle (v : VehiclePosition) : PosRecord :=
  { vehicle_id := orNone v.vehicle.id
    trip_id := orNone v.trip.trip_id
    route_id := orNone v.trip.route_id
    lat := match v.position with
      | some p => some p.latitude
      | none => none
    lon := match v.position with
      | some p => some p.longitude
      | none => none
    timestamp := if v.timestamp ≠ 0 then some v.timestamp else none }

/-- The entity loop of `PositionsFetcher.to_clean_dict`: entities without the
`vehicle` field are skipped (`continue`), matching ones append a record. -/
def PositionsFetcher.cleanEntities : List FeedEntity → List PosRecord
  | [] => []
  | e :: rest =>
    match e.vehicle with
    | none => PositionsFetcher.cleanEntities rest
    | some v => PositionsFetcher.cleanVehicle v :: PositionsFetcher.cleanEntities rest

/-- `PositionsFetcher.to_clean_dict` (fetch_realtime.py lines 197-224). -/
def PositionsFetcher.to_clean_dict (feed : FeedMessage) : List PosRecord :=
  PositionsFetcher.cleanEntities feed.entity

/-- Output record for one `StopTimeUpdate` inside a cleaned trip update. -/
structure StopRecord where
  stop_id : String
  arrival : Option Int
  departure : Option Int
  arrival_delay : Option Int
  departure_delay : Option Int

/-- Output record of `TripUpdatesFetcher.to_clean_dict` for one trip update.
Note `trip_id` and `route_id` are plain strings: the source copies them
verbatim, with no `or None`. -/
structure TripRecord where
  trip_id : String
  route_id : String
  stop_time_updates : List StopRecord

/-- The record built for one `StopTimeUpdate` in the inner loop of
`TripUpdatesFetcher.to_clean_dict` (fetch_realtime.py lines 267-282). -/
def TripUpdatesFetcher.cleanStop (s : StopTimeUpdate) : StopRecord :=
  { stop_id := s.stop_id
    arrival := match s.arrival with
      | some ev => some ev.time
      | none => none
    departure := match s.departure with
      | some ev => some ev.time
      | none => none
    arrival_delay := match s.arrival with
      | some ev => some ev.delay
      | none => none
    departure_delay := match s.departure with
      | some ev => some ev.delay
      | none => none }

/-- The inner loop over `tu.stop_time_update`, in stored order. -/
def TripUpdatesFetcher.cleanStops : List StopTimeUpdate → List StopRecord
  | [] => []
  | s :: rest => TripUpdatesFetcher.cleanStop s :: TripUpdatesFetcher.cleanStops rest

/-- The record built for one matching entity in the loop body of
`TripUpdatesFetcher.to_clean_dict` (fetch_realtime.py lines 283-289). -/
def TripUpdatesFetcher.cleanTrip (tu : TripUpdate) : TripRecord :=
  { trip_id := tu.trip.trip_id
    route_id := tu.trip.route_id
    stop_time_updates := TripUpdatesFetcher.cleanStops tu.stop_time_update }

/-- The entity loop of `TripUpdatesFetcher.to_clean_dict`: entities without the
`trip_update` field are skipped. -/
def TripUpdatesFetcher.cleanEntities : List FeedEntity → List TripRecord
  | [] => []
  | e :: rest =>
    match e.trip_update with
    | none => TripUpdatesFetcher.cleanEntities rest
    | some tu => TripUpdatesFetcher.cleanTrip tu :: TripUpdatesFetcher.cleanEntities rest

/-- `TripUpdatesFetcher.to_clean_dict` (fetch_realtime.py lines 250-290). -/
def TripUpdatesFetcher.to_clean_dict (feed : FeedMessage) : List TripRecord :=
  TripUpdatesFetcher.cleanEntities feed.entity

/-- Output record for one `InformedEntity` of a cleaned alert. -/
structure InformedRecord where
  trip_id : Option String
  route_id : Option String
  stop_id : Option String

/-- Output record of `AlertsFetcher.to_clean_dict` for one alert. -/
structure AlertRecord where
  cause : String
  effect : String
  header : String
  description : String
  informed_entities : List InformedRecord

/-- The error raised by `gtfs_realtime_pb2.Alert.Cause.Name` /
`Alert.Effect.Name` on a code outside the enumeration (a `ValueError` in
Python; the spec's error taxonomy calls it `UnknownEnumValue`). -/
structure UnknownEnumValue where
  enumName : String
  code : Nat

/-- The inner loop over `alert.informed_entity`
(fetch_realtime.py lines 334-342). -/
def AlertsFetcher.informedRecord (i : EntitySelector) : InformedRecord :=
  { trip_id := orNone i.trip.trip_id
    route_id := orNone i.route_id
    stop_id := orNone i.stop_id }

def AlertsFetcher.informedList : List EntitySelector → List InformedRecord
  | [] => []
  | i :: rest => AlertsFetcher.informedRecord i :: AlertsFetcher.informedList rest

/-- The record built for one alert in the loop body of
`AlertsFetcher.to_clean_dict` (fetch_realtime.py lines 344-360).  The two
enum lookups evaluate first; an unknown code aborts with `UnknownEnumValue`
(the `ValueError` raised by `.Name` in Python). -/
def AlertsFetcher.alertRecord (a : Alert) : Except UnknownEnumValue AlertRecord :=
  match Alert.Cause.Name a.cause with
  | none => Except.error { enumName := "Cause", code := a.cause }
  | some c =>
    match Alert.Effect.Name a.effect with
    | none => Except.error { enumName := "Effect", code := a.effect }
    | some ef =>
      Except.ok
        { cause := c
          effect := ef
          header := match a.header_text.translation with
            | [] => ""
            | t :: _ => t.text
          description := match a.description_text.translation with
            | [] => ""
            | t :: _ => t.text
          informed_entities := AlertsFetcher.informedList a.informed_entity }

/-- The entity loop of `AlertsFetcher.to_clean_dict`: entities without the
`alert` field are skipped; an `UnknownEnumValue` raised for any processed
alert propagates and aborts the whole normalization (a Python exception
escapes the loop). -/
def AlertsFetcher.cleanEntities : List FeedEntity → Except UnknownEnumValue (List AlertRecord)
  | [] => Except.ok []
  | e :: rest =>
    match e.alert with
    | none => AlertsFetcher.cleanEntities rest
    | some a =>
      match AlertsFetcher.alertRecord a with
      | Except.error err => Except.error err
      | Except.ok r =>
        match AlertsFetcher.cleanEntities rest with
        | Except.error err => Except.error err
        | Except.ok l => Except.ok (r :: l)

/-- `AlertsFetcher.to_clean_dict` (fetch_realtime.py lines 317-362). -/
def AlertsFetcher.to_clean_dict (feed : FeedMessage) : Except UnknownEnumValue (List AlertRecord) :=
  AlertsFetcher.cleanEntities feed.entity

/-- A CSV row: one Python dict, with its insertion-ordered keys. -/
abbrev Row := List (String × String)

/-- `FileSaver` state (file_saver.py): the base directory (`self.path`) and the
timestamp used in filenames. -/
structure FileSaver where
  path : String
  timestamp : String

/-- `FileSaver._filename` (file_saver.py lines 31-43):
`<base_dir>/<source>_<timestamp>.<ext>`. -/
def FileSaver.filenameFor (fs : FileSaver) (source ext : String) : String :=
  fs.path ++ "/" ++ (source ++ "_" ++ fs.timestamp ++ "." ++ ext)

/-- The sink-level errors of `FileSaver.save_csv`, both `ValueError` in
Python: `emptyInput` is the explicit raise on an empty rows list (the spec's
taxonomy names it `EmptyInputError`); `extraFields` is raised by
`csv.DictWriter` (default `extrasaction="raise"`) when a row being written
contains a key that is not among the fieldnames. -/
inductive FileSaverError where
  | emptyInput (msg : String)
  | extraFields (msg : String)

/-- The written CSV file: its path, the header (fieldnames from the first
row's keys), and the rows. -/
structure CsvFile where
  path : String
  fieldnames : List String
  rows : List Row

/-- `FileSaver.save_csv` (file_saver.py lines 63-90), with the file-system
write modeled by returning the path and contents.  The fieldnames are the
first row's keys; `writer.writerows(rows)` with the default
`extrasaction="raise"` raises `ValueError("dict contains fields not in
fieldnames: ...")` as soon as some row holds a key outside the fieldnames
(rows with missing keys are filled from `restval` and do not fail), so the
write succeeds exactly when every row's keys are among the first row's
keys. -/
def FileSaver.save_csv (fs : FileSaver) (source : String) (rows : List Row) :
    Except FileSaverError CsvFile :=
  match rows with
  | [] => Except.error (FileSaverError.emptyInput "rows cannot be empty")
  | r0 :: rest =>
    if ∀ r ∈ r0 :: rest, ∀ kv ∈ r, kv.fst ∈ r0.map Prod.fst then
      Except.ok
        { path := fs.filenameFor source "csv"
          fieldnames := r0.map Prod.fst
          rows := r0 :: rest }
    else
      Except.error (FileSaverError.extraFields "dict contains fields not in fieldnames")

/-- Python `p in s` / `s.startswith(p)` matching at the head of a character
list. -/
def startsWith : List Char → List Char → Bool
  | [], _ => true
  | _ :: _, [] => false
  | p :: ps, c :: cs => p == c && startsWith ps cs

/-- Python `s.replace(pat, "***")` for a nonempty `pat`: left-to-right,
non-overlapping replacement of every occurrence of `pat` by `***`.  (For an
empty pattern Python interleaves the replacement between characters; the
guard keeps the empty pattern a no-op instead, a degenerate case no claim
depends on.) -/
def replaceAll (pat : List Char) : List Char → List Char
  | [] => []
  | c :: t =>
    if startsWith pat (c :: t) && !pat.isEmpty then
      '*' :: '*' :: '*' :: replaceAll pat (t.drop (pat.length - 1))
    else
      c :: replaceAll pat t
termination_by s => s.length
decreasing_by
  · simp [List.length_drop]
    omega
  · simp

/-- The slice of a `logging.LogRecord` the obfuscation filter touches. -/
structure LogRecord where
  msg : List Char

/-- `LogObfuscator.filter` (utils.py lines 22-42): when `record.msg` is truthy
(nonempty), every keyword is replaced by `"***"` in it; the boolean returned
to the logging framework is always `True` (returning `False` would drop the
record). -/
def LogObfuscator.filter (keywords : List (List Char)) (record : LogRecord) :
    LogRecord × Bool :=
  if record.msg.isEmpty then
    (record, true)
  else
    ({ msg := keywords.foldl (fun m w => replaceAll w m) record.msg }, true)

/-- The two-handler pipeline configured by `RealtimeFetcher._init_logger`
(fetch_realtime.py lines 45-66): the file handler is added first and has no
filter, so it emits the record's message unchanged; the console handler's
`LogObfuscator` (keywords = the API key) then runs before the console emits,
and emits only if the filter returns `True`.  Result: (file line, console
line if emitted). -/
def RealtimeFetcher.emitLog (apiKey : List Char) (record : LogRecord) :
    List Char × Option (List Char) :=
  let fileLine := record.msg
  let fc := LogObfuscator.filter [apiKey] record
  (fileLine, if fc.2 then some fc.1.msg else none)

/-- Concrete feed used to instantiate the counting theorem: one vehicle
entity, one trip-update entity, one empty entity, no alerts. -/
def feedEx1 : FeedMessage :=
  { entity :=
      [ { vehicle := some { vehicle := { id := "3301" }
                            trip := { trip_id := "t1", route_id := "r1" }
                            position := none
                            timestamp := 10 }
          trip_update := none
          alert := none }
      , { vehicle := none
          trip_update := some { trip := { trip_id := "t2", route_id := "r2" }
                                stop_time_update := [] }
          alert := none }
      , { vehicle := none, trip_update := none, alert := none } ] }

/-- Concrete alert with cause 9 (MAINTENANCE) and effect 4 (DETOUR). -/
def alertEx9 : Alert :=
  { cause := 9
    effect := 4
    header_text := { translation := [{ text := "Route 99 detour" }] }
    description_text := { translation := [] }
    informed_entity := [] }

/-- The cleaned record `AlertsFetcher.to_clean_dict` produces for `alertEx9`. -/
def alertRecEx9 : AlertRecord :=
  { cause := "MAINTENANCE"
    effect := "DETOUR"
    header := "Route 99 detour"
    description := ""
    informed_entities := [] }

/-- Concrete alert with an out-of-range cause code. -/
def alertExBad : Alert :=
  { cause := 99
    effect := 1
    header_text := { translation := [] }
    description_text := { translation := [] }
    informed_entity := [] }

/-- Vehicle entity with everything unset/empty and a zero timestamp. -/
def vehicleExEmpty : VehiclePosition :=
  { vehicle := { id := "" }
    trip := { trip_id := "", route_id := "" }
    position := none
    timestamp := 0 }

/-- Vehicle entity with a position sub-message set. -/
def vehicleExPos : VehiclePosition :=
  { vehicle := { id := "3302" }
    trip := { trip_id := "t3", route_id := "r3" }
    position := some { latitude := 49.25, longitude := -123.1 }
    timestamp := 7 }

/-- Stop-time update whose arrival sub-message is set with time 0, delay 0. -/
def stopExZero : StopTimeUpdate :=
  { stop_id := "st1"
    arrival := some { time := 0, delay := 0 }
    departure := none }

/-- Trip update with two stop-time updates, exercising order preservation. -/
def tripEx2 : TripUpdate :=
  { trip := { trip_id := "", route_id := "" }
    stop_time_update :=
      [ stopExZero
      , { stop_id := "st2"
          arrival := none
          departure := some { time := 1700000000, delay := -30 } } ] }

/-- Concrete `FileSaver` used to instantiate the sink theorem. -/
def fileSaverEx : FileSaver :=
  { path := "data/clean/realtime/position_updates", timestamp := "2026-10-12T00-00" }

/-- Concrete CSV row used to instantiate the sink theorem. -/
def rowEx : Row := [("vehicle_id", "3301"), ("route_id", "r1")]

/-! Helper lemmas shared by the claim theorems. -/

theorem exceptBind_ok {ε α β : Type} (a : α) (f : α → Except ε β) :
    (Except.ok a : Except ε α) >>= f = f a := rfl

theorem exceptBind_error {ε α β : Type} (e : ε) (f : α → Except ε β) :
    (Except.error e : Except ε α) >>= f = Except.error e := rfl

theorem exceptPure {ε α : Type} (a : α) : (pure a : Except ε α) = Except.ok a := rfl

theorem posClean_eq (es : List FeedEntity) :
    PositionsFetcher.cleanEntities es
      = (es.filterMap (fun e => e.vehicle)).map PositionsFetcher.cleanVehicle := by
  induction es with
  | nil => rfl
  | cons e rest ih =>
    cases hv : e.vehicle <;>
      simp [PositionsFetcher.cleanEntities, List.filterMap_cons, hv, ih]

theorem tripsClean_eq (es : List FeedEntity) :
    TripUpdatesFetcher.cleanEntities es
      = (es.filterMap (fun e => e.trip_update)).map TripUpdatesFetcher.cleanTrip := by
  induction es with
  | nil => rfl
  | cons e rest ih =>
    cases hv : e.trip_update <;>
      simp [TripUpdatesFetcher.cleanEntities, List.filterMap_cons, hv, ih]

theorem length_filterMap_countP {α β : Type} (g : α → Option β) (es : List α) :
    (es.filterMap g).length = es.countP (fun e => (g e).isSome) := by
  induction es with
  | nil => rfl
  | cons e rest ih =>
    cases hg : g e <;> simp [List.filterMap_cons, List.countP_cons, hg, ih]

theorem alertsClean_eq (es : List FeedEntity) :
    AlertsFetcher.cleanEntities es
      = (es.filterMap (fun e => e.alert)).mapM AlertsFetcher.alertRecord := by
  induction es with
  | nil => rfl
  | cons e rest ih =>
    cases ha : e.alert with
    | none => simp [AlertsFetcher.cleanEntities, ha, List.filterMap_cons, ih]
    | some a =>
      simp only [AlertsFetcher.cleanEntities, ha, List.filterMap_cons, List.mapM_cons, ih]
      cases hr : AlertsFetcher.alertRecord a with
      | error err => simp [exceptBind_error]
      | ok r =>
        cases hc : (rest.filterMap (fun e => e.alert)).mapM AlertsFetcher.alertRecord with
        | error err => simp [exceptBind_ok, exceptBind_error]
        | ok l => simp [exceptBind_ok, exceptPure]

theorem alertsClean_ok_length (es : List FeedEntity) :
    ∀ l, AlertsFetcher.cleanEntities es = Except.ok l →
      l.length = es.countP (fun e => e.alert.isSome) := by
  induction es with
  | nil =>
    intro l h
    simp only [AlertsFetcher.cleanEntities, Except.ok.injEq] at h
    subst h
    rfl
  | cons e rest ih =>
    intro l h
    cases ha : e.alert with
    | none =>
      simp only [AlertsFetcher.cleanEntities, ha] at h
      simpa [List.countP_cons, ha] using ih l h
    | some a =>
      simp only [AlertsFetcher.cleanEntities, ha] at h
      cases hr : AlertsFetcher.alertRecord a with
      | error err => rw [hr] at h; simp at h
      | ok r =>
        rw [hr] at h
        cases hc : AlertsFetcher.cleanEntities rest with
        | error err => rw [hc] at h; simp at h
        | ok l' =>
          rw [hc] at h
          simp only [Except.ok.injEq] at h
          subst h
          simp [List.countP_cons, ha, ih l' hc]

theorem cleanStops_eq (l : List StopTimeUpdate) :
    TripUpdatesFetcher.cleanStops l = l.map TripUpdatesFetcher.cleanStop := by
  induction l with
  | nil => rfl
  | cons s rest ih => simp [TripUpdatesFetcher.cleanStops, ih]

theorem startsWith_iff (p : List Char) :
    ∀ s, startsWith p s = true ↔ p <+: s := by
  induction p with
  | nil => intro s; simp [startsWith]
  | cons a ps ih =>
    intro s
    cases s with
    | nil => simp [startsWith]
    | cons c cs => simp [startsWith, List.cons_prefix_cons, ih]

theorem replaceAll_prefix_transfer (pat : List Char) :
    ∀ s u, '*' ∉ u → u <+: replaceAll pat s → u <+: s := by
  intro s
  induction s using replaceAll.induct pat with
  | case1 =>
    intro u hu h
    simpa [replaceAll] using h
  | case2 c t hcond ih =>
    intro u hu h
    simp only [replaceAll, if_pos hcond] at h
    cases u with
    | nil => exact List.nil_prefix
    | cons a u' =>
      rw [List.cons_prefix_cons] at h
      obtain ⟨ha, -⟩ := h
      subst ha
      exact absurd (List.mem_cons_self _ _) hu
  | case3 c t hcond ih =>
    intro u hu h
    simp only [replaceAll, if_neg hcond] at h
    cases u with
    | nil => exact List.nil_prefix
    | cons a u' =>
      rw [List.cons_prefix_cons] at h ⊢
      exact ⟨h.1, ih u' (fun hm => hu (List.mem_cons_of_mem a hm)) h.2⟩

theorem replaceAll_no_occurrence (pat : List Char) (hne : pat ≠ []) (hstar : '*' ∉ pat) :
    ∀ s, ¬ pat <:+: replaceAll pat s := by
  have hpfx : ∀ X : List Char, ¬ pat <+: '*' :: X := by
    intro X h
    obtain ⟨p, ps, rfl⟩ : ∃ p ps, pat = p :: ps := by
      cases pat with
      | nil => exact absurd rfl hne
      | cons p ps => exact ⟨p, ps, rfl⟩
    rw [List.cons_prefix_cons] at h
    obtain ⟨hp, -⟩ := h
    subst hp
    exact absurd (List.mem_cons_self _ _) hstar
  intro s
  induction s using replaceAll.induct pat with
  | case1 =>
    simp only [replaceAll]
    simpa using hne
  | case2 c t hcond ih =>
    intro h
    simp only [replaceAll, if_pos hcond] at h
    rcases List.infix_cons_iff.mp h with h | h
    · exact hpfx _ h
    rcases List.infix_cons_iff.mp h with h | h
    · exact hpfx _ h
    rcases List.infix_cons_iff.mp h with h | h
    · exact hpfx _ h
    · exact ih h
  | case3 c t hcond ih =>
    intro h
    simp only [replaceAll, if_neg hcond] at h
    rcases List.infix_cons_iff.mp h with h | h
    · obtain ⟨p, ps, hpat⟩ : ∃ p ps, pat = p :: ps := by
        cases pat with
        | nil => exact absurd rfl hne
        | cons p ps => exact ⟨p, ps, rfl⟩
      rw [hpat, List.cons_prefix_cons] at h
      obtain ⟨hp, hps⟩ := h
      rw [← hpat] at hps
      have hps' : ps <+: t :=
        replaceAll_prefix_transfer pat t ps
          (fun hm => hstar (hpat ▸ List.mem_cons_of_mem p hm)) hps
      apply hcond
      have hpre : pat <+: c :: t := by
        rw [hpat, List.cons_prefix_cons]
        exact ⟨hp, hps'⟩
      rw [(startsWith_iff pat (c :: t)).mpr hpre]
      simp [hpat, List.isEmpty]
    · exact ih h

/-! Claim theorems. -/

/-- C1: for every decoded feed, each of the three normalizers keeps exactly the
entities whose populated variant matches its target kind, in source order (the
output is the record map over the `filterMap` of the matching variant, so
non-matching entities are skipped silently, producing no record and no error),
and the output length equals the count of matching entities and is at most the
number of entities. -/
theorem normalizers_skip_count_order (feed : FeedMessage) :
    PositionsFetcher.to_clean_dict feed
        = (feed.entity.filterMap (fun e => e.vehicle)).map PositionsFetcher.cleanVehicle
  ∧ (PositionsFetcher.to_clean_dict feed).length
        = feed.entity.countP (fun e => e.vehicle.isSome)
  ∧ (PositionsFetcher.to_clean_dict feed).length ≤ feed.entity.length
  ∧ TripUpdatesFetcher.to_clean_dict feed
        = (feed.entity.filterMap (fun e => e.trip_update)).map TripUpdatesFetcher.cleanTrip
  ∧ (TripUpdatesFetcher.to_clean_dict feed).length
        = feed.entity.countP (fun e => e.trip_update.isSome)
  ∧ (TripUpdatesFetcher.to_clean_dict feed).length ≤ feed.entity.length
  ∧ AlertsFetcher.to_clean_dict feed
        = (feed.entity.filterMap (fun e => e.alert)).mapM AlertsFetcher.alertRecord
  ∧ (∀ l, AlertsFetcher.to_clean_dict feed = Except.ok l →
      l.length = feed.entity.countP (fun e => e.alert.isSome)
        ∧ l.length ≤ feed.entity.length) := by
  have hpos : (PositionsFetcher.to_clean_dict feed).length
      = feed.entity.countP (fun e => e.vehicle.isSome) := by
    show (PositionsFetcher.cleanEntities feed.entity).length = _
    rw [posClean_eq, List.length_map, length_filterMap_countP]
  have htrip : (TripUpdatesFetcher.to_clean_dict feed).length
      = feed.entity.countP (fun e => e.trip_update.isSome) := by
    show (TripUpdatesFetcher.cleanEntities feed.entity).length = _
    rw [tripsClean_eq, List.length_map, length_filterMap_countP]
  refine ⟨posClean_eq feed.entity, hpos, ?_, tripsClean_eq feed.entity, htrip, ?_,
    alertsClean_eq feed.entity, ?_⟩
  · rw [hpos]; exact List.countP_le_length _
  · rw [htrip]; exact List.countP_le_length _
  · intro l h
    have hlen := alertsClean_ok_length feed.entity l h
    exact ⟨hlen, by rw [hlen]; exact List.countP_le_length _⟩

/-- C1 witness: on the concrete feed `feedEx1` (one vehicle entity, one
trip-update entity, one empty entity, no alerts) the alerts normalizer
succeeds with the empty list, whose length is the count of alert entities. -/
theorem normalizers_skip_count_order_witness :
    AlertsFetcher.to_clean_dict feedEx1 = Except.ok []
  ∧ (List.length ([] : List AlertRecord) = feedEx1.entity.countP (fun e => e.alert.isSome)
      ∧ List.length ([] : List AlertRecord) ≤ feedEx1.entity.length) :=
  ⟨rfl, (normalizers_skip_count_order feedEx1).2.2.2.2.2.2.2 [] rfl⟩

/-- C2: a cleaned alert's `cause`/`effect` strings always come from the fixed
enum name tables (in particular cause code 9 yields "MAINTENANCE"), and a code
outside the enumeration makes the normalizer fail with `UnknownEnumValue`
instead of emitting a default. -/
theorem alert_enum_resolution :
    (∀ a r, AlertsFetcher.alertRecord a = Except.ok r →
        Alert.Cause.Name a.cause = some r.cause
          ∧ Alert.Effect.Name a.effect = some r.effect)
  ∧ Alert.Cause.Name 9 = some "MAINTENANCE"
  ∧ (∀ a, a.cause = 9 → ∀ r, AlertsFetcher.alertRecord a = Except.ok r →
        r.cause = "MAINTENANCE")
  ∧ (∀ a, Alert.Cause.Name a.cause = none →
        AlertsFetcher.alertRecord a = Except.error { enumName := "Cause", code := a.cause })
  ∧ (∀ a, Alert.Effect.Name a.effect = none →
        ∃ err, AlertsFetcher.alertRecord a = Except.error err) := by
  have main : ∀ a r, AlertsFetcher.alertRecord a = Except.ok r →
      Alert.Cause.Name a.cause = some r.cause
        ∧ Alert.Effect.Name a.effect = some r.effect := by
    intro a r h
    unfold AlertsFetcher.alertRecord at h
    cases hc : Alert.Cause.Name a.cause with
    | none => rw [hc] at h; simp at h
    | some c =>
      rw [hc] at h
      cases he : Alert.Effect.Name a.effect with
      | none => rw [he] at h; simp at h
      | some ef =>
        rw [he] at h
        simp only [Except.ok.injEq] at h
        subst h
        exact ⟨rfl, rfl⟩
  refine ⟨main, rfl, ?_, ?_, ?_⟩
  · intro a h9 r h
    have h1 := (main a r h).1
    rw [h9] at h1
    have h2 : some "MAINTENANCE" = some r.cause := h1
    injection h2 with h3
    exact h3.symm
  · intro a h
    unfold AlertsFetcher.alertRecord
    rw [h]
  · intro a he
    unfold AlertsFetcher.alertRecord
    cases hc : Alert.Cause.Name a.cause with
    | none => exact ⟨{ enumName := "Cause", code := a.cause }, rfl⟩
    | some c => rw [he]; exact ⟨{ enumName := "Effect", code := a.effect }, rfl⟩

/-- C2 witness: the concrete alert with cause 9 cleans to a record whose
`cause` is "MAINTENANCE", and the alert with cause code 99 fails with
`UnknownEnumValue`. -/
theorem alert_enum_resolution_witness :
    alertRecEx9.cause = "MAINTENANCE"
  ∧ AlertsFetcher.alertRecord alertExBad
      = Except.error { enumName := "Cause", code := 99 } :=
  ⟨alert_enum_resolution.2.2.1 alertEx9 rfl alertRecEx9 rfl,
   alert_enum_resolution.2.2.2.1 alertExBad rfl⟩

/-- C3: the positions normalizer collapses a zero vehicle timestamp to the
absent value (and keeps a nonzero one), while the trip-updates normalizer
emits arrival/departure time and delay as present values whenever the
corresponding sub-message is set, even when they are numerically zero. -/
theorem zero_timestamp_quirk :
    (∀ v : VehiclePosition, v.timestamp = 0 →
        (PositionsFetcher.cleanVehicle v).timestamp = none)
  ∧ (∀ v : VehiclePosition, v.timestamp ≠ 0 →
        (PositionsFetcher.cleanVehicle v).timestamp = some v.timestamp)
  ∧ (∀ s ev, s.arrival = some ev →
        (TripUpdatesFetcher.cleanStop s).arrival = some ev.time
          ∧ (TripUpdatesFetcher.cleanStop s).arrival_delay = some ev.delay)
  ∧ (∀ s ev, s.departure = some ev →
        (TripUpdatesFetcher.cleanStop s).departure = some ev.time
          ∧ (TripUpdatesFetcher.cleanStop s).departure_delay = some ev.delay) := by
  refine ⟨?_, ?_, ?_, ?_⟩
  · intro v h; simp [PositionsFetcher.cleanVehicle, h]
  · intro v h; simp [PositionsFetcher.cleanVehicle, h]
  · intro s ev h; simp [TripUpdatesFetcher.cleanStop, h]
  · intro s ev h; simp [TripUpdatesFetcher.cleanStop, h]

/-- C3 witness: a vehicle with timestamp 0 cleans to an absent timestamp,
while a stop-time update with a set arrival of time 0 and delay 0 cleans to
the present values `some 0`. -/
theorem zero_timestamp_quirk_witness :
    (PositionsFetcher.cleanVehicle vehicleExEmpty).timestamp = none
  ∧ (TripUpdatesFetcher.cleanStop stopExZero).arrival = some 0
  ∧ (TripUpdatesFetcher.cleanStop stopExZero).arrival_delay = some 0 :=
  ⟨zero_timestamp_quirk.1 vehicleExEmpty rfl,
   (zero_timestamp_quirk.2.2.1 stopExZero { time := 0, delay := 0 } rfl).1,
   (zero_timestamp_quirk.2.2.1 stopExZero { time := 0, delay := 0 } rfl).2⟩

/-- C4: the positions normalizer emits `lat = none` and `lon = none` when the
position sub-message is unset (and copies its latitude/longitude when set),
and maps empty vehicle/trip/route identifier strings to the absent value. -/
theorem position_absent_fields :
    (∀ v : VehiclePosition, v.position = none →
        (PositionsFetcher.cleanVehicle v).lat = none
          ∧ (PositionsFetcher.cleanVehicle v).lon = none)
  ∧ (∀ v p, v.position = some p →
        (PositionsFetcher.cleanVehicle v).lat = some p.latitude
          ∧ (PositionsFetcher.cleanVehicle v).lon = some p.longitude)
  ∧ (∀ v : VehiclePosition, v.vehicle.id = "" →
        (PositionsFetcher.cleanVehicle v).vehicle_id = none)
  ∧ (∀ v : VehiclePosition, v.trip.trip_id = "" →
        (PositionsFetcher.cleanVehicle v).trip_id = none)
  ∧ (∀ v : VehiclePosition, v.trip.route_id = "" →
        (PositionsFetcher.cleanVehicle v).route_id = none) := by
  refine ⟨?_, ?_, ?_, ?_, ?_⟩
  · intro v h; simp [PositionsFetcher.cleanVehicle, h]
  · intro v p h; simp [PositionsFetcher.cleanVehicle, h]
  · intro v h; simp [PositionsFetcher.cleanVehicle, orNone, h]
  · intro v h; simp [PositionsFetcher.cleanVehicle, orNone, h]
  · intro v h; simp [PositionsFetcher.cleanVehicle, orNone, h]

/-- C4 witness: the all-empty vehicle cleans to absent identifiers and absent
coordinates, and a vehicle with a set position copies its coordinates. -/
theorem position_absent_fields_witness :
    ((PositionsFetcher.cleanVehicle vehicleExEmpty).lat = none
        ∧ (PositionsFetcher.cleanVehicle vehicleExEmpty).lon = none)
  ∧ ((PositionsFetcher.cleanVehicle vehicleExPos).lat = some (49.25 : Float)
        ∧ (PositionsFetcher.cleanVehicle vehicleExPos).lon = some (-123.1 : Float))
  ∧ (PositionsFetcher.cleanVehicle vehicleExEmpty).vehicle_id = none
  ∧ (PositionsFetcher.cleanVehicle vehicleExEmpty).trip_id = none
  ∧ (PositionsFetcher.cleanVehicle vehicleExEmpty).route_id = none :=
  ⟨position_absent_fields.1 vehicleExEmpty rfl,
   position_absent_fields.2.1 vehicleExPos { latitude := 49.25, longitude := -123.1 } rfl,
   position_absent_fields.2.2.1 vehicleExEmpty rfl,
   position_absent_fields.2.2.2.1 vehicleExEmpty rfl,
   position_absent_fields.2.2.2.2 vehicleExEmpty rfl⟩

/-- C5: a cleaned alert's `header` (resp. `description`) is the text of the
first translation of the header-text (resp. description-text) translations
list, and the empty string when that list is empty. -/
theorem alert_header_first_translation :
    ∀ a r, AlertsFetcher.alertRecord a = Except.ok r →
      (a.header_text.translation = [] → r.header = "")
        ∧ (∀ t ts, a.header_text.translation = t :: ts → r.header = t.text)
        ∧ (a.description_text.translation = [] → r.description = "")
        ∧ (∀ t ts, a.description_text.translation = t :: ts → r.description = t.text) := by
  intro a r h
  unfold AlertsFetcher.alertRecord at h
  cases hc : Alert.Cause.Name a.cause with
  | none => rw [hc] at h; simp at h
  | some c =>
    rw [hc] at h
    cases he : Alert.Effect.Name a.effect with
    | none => rw [he] at h; simp at h
    | some ef =>
      rw [he] at h
      simp only [Except.ok.injEq] at h
      subst h
      refine ⟨?_, ?_, ?_, ?_⟩
      · intro ht; simp [ht]
      · intro t ts ht; simp [ht]
      · intro ht; simp [ht]
      · intro t ts ht; simp [ht]

/-- C5 witness: the concrete alert with one header translation and no
description translations cleans to header "Route 99 detour" and description
`""`. -/
theorem alert_header_first_translation_witness :
    alertRecEx9.header = "Route 99 detour" ∧ alertRecEx9.description = "" :=
  ⟨(alert_header_first_translation alertEx9 alertRecEx9 rfl).2.1
      { text := "Route 99 detour" } [] rfl,
   (alert_header_first_translation alertEx9 alertRecEx9 rfl).2.2.1 rfl⟩

/-- C6: a cleaned trip update's `stop_time_updates` has exactly one element
per input `StopTimeUpdate`, in input order: same length, and the i-th output
element is the cleaned i-th input element. -/
theorem stop_time_updates_preserved (tu : TripUpdate) :
    (TripUpdatesFetcher.cleanTrip tu).stop_time_updates.length
        = tu.stop_time_update.length
  ∧ ∀ i (h1 : i < tu.stop_time_update.length)
      (h2 : i < (TripUpdatesFetcher.cleanTrip tu).stop_time_updates.length),
      (TripUpdatesFetcher.cleanTrip tu).stop_time_updates.get ⟨i, h2⟩
        = TripUpdatesFetcher.cleanStop (tu.stop_time_update.get ⟨i, h1⟩) := by
  have hlist : (TripUpdatesFetcher.cleanTrip tu).stop_time_updates
      = tu.stop_time_update.map TripUpdatesFetcher.cleanStop := cleanStops_eq _
  constructor
  · rw [hlist, List.length_map]
  · intro i h1 h2
    simp only [List.get_eq_getElem, hlist, List.getElem_map]

/-- C6 witness: the concrete trip update with two stop-time updates cleans to
a two-element `stop_time_updates` whose second element is the cleaned second
input. -/
theorem stop_time_updates_preserved_witness :
    (TripUpdatesFetcher.cleanTrip tripEx2).stop_time_updates.length = 2
  ∧ (TripUpdatesFetcher.cleanTrip tripEx2).stop_time_updates.get ⟨1, by decide⟩
      = TripUpdatesFetcher.cleanStop (tripEx2.stop_time_update.get ⟨1, by decide⟩) :=
  ⟨(stop_time_updates_preserved tripEx2).1,
   (stop_time_updates_preserved tripEx2).2 1 (by decide) (by decide)⟩

theorem filenameFor_eq (fs : FileSaver) (source : String) :
    fs.filenameFor source "csv"
      = fs.path ++ "/" ++ (source ++ "_" ++ fs.timestamp ++ ".csv") := by
  show fs.path ++ "/" ++ (source ++ "_" ++ fs.timestamp ++ "." ++ "csv") = _
  rw [String.append_assoc (source ++ "_" ++ fs.timestamp) "." "csv"]
  rfl

/-- C7 counterexample: a non-empty rows list whose second row has a key
outside the first row's keys does not return a path: `csv.DictWriter` with
the default `extrasaction="raise"` raises `ValueError`, so the claim's
universal "for every non-empty rows list it writes a CSV and returns a path"
fails at this input. -/
theorem save_csv_extra_key_error :
    FileSaver.save_csv fileSaverEx "position_updates" [[("a", "1")], [("b", "2")]]
      = Except.error (FileSaverError.extraFields "dict contains fields not in fieldnames") :=
  rfl

/-- C7 (amended): `save_csv` fails with the empty-input error on an empty
rows list; on a non-empty list whose every row's keys are among the first
row's keys it writes a CSV at `<base_dir>/<source>_<timestamp>.csv` with the
first row's keys as fieldnames; and when some row holds a key outside the
first row's keys it fails with the DictWriter field error instead of
returning a path. -/
theorem save_csv_empty_and_nonempty (fs : FileSaver) (source : String) (rows : List Row) :
    (rows = [] →
        FileSaver.save_csv fs source rows
          = Except.error (FileSaverError.emptyInput "rows cannot be empty"))
  ∧ (∀ r0 rest, rows = r0 :: rest →
        ((∀ r ∈ r0 :: rest, ∀ kv ∈ r, kv.fst ∈ r0.map Prod.fst) →
            FileSaver.save_csv fs source rows
              = Except.ok
                  { path := fs.path ++ "/" ++ (source ++ "_" ++ fs.timestamp ++ ".csv")
                    fieldnames := r0.map Prod.fst
                    rows := r0 :: rest })
          ∧ ((∃ r ∈ r0 :: rest, ∃ kv ∈ r, kv.fst ∉ r0.map Prod.fst) →
              FileSaver.save_csv fs source rows
                = Except.error
                    (FileSaverError.extraFields "dict contains fields not in fieldnames"))) := by
  constructor
  · intro h; subst h; rfl
  · intro r0 rest h
    subst h
    constructor
    · intro hall
      rw [← filenameFor_eq]
      simp only [FileSaver.save_csv]
      rw [if_pos hall]
    · intro hex
      obtain ⟨r, hr, kv, hkv, hnot⟩ := hex
      simp only [FileSaver.save_csv]
      rw [if_neg (fun hall => hnot (hall r hr kv hkv))]

/-- C7 witness: the concrete saver rejects an empty rows list, writes one
concrete row under the derived path with the row's keys as fieldnames, and
fails with the field error when a second row brings an extra key. -/
theorem save_csv_empty_and_nonempty_witness :
    FileSaver.save_csv fileSaverEx "position_updates" []
        = Except.error (FileSaverError.emptyInput "rows cannot be empty")
  ∧ FileSaver.save_csv fileSaverEx "position_updates" [rowEx]
      = Except.ok
          { path := "data/clean/realtime/position_updates/position_updates_2026-10-12T00-00.csv"
            fieldnames := ["vehicle_id", "route_id"]
            rows := [rowEx] }
  ∧ FileSaver.save_csv fileSaverEx "position_updates" [rowEx, [("zone", "A")]]
      = Except.error (FileSaverError.extraFields "dict contains fields not in fieldnames") :=
  ⟨(save_csv_empty_and_nonempty fileSaverEx "position_updates" []).1 rfl,
   ((save_csv_empty_and_nonempty fileSaverEx "position_updates" [rowEx]).2 rowEx [] rfl).1
     (by decide),
   ((save_csv_empty_and_nonempty fileSaverEx "position_updates"
         [rowEx, [("zone", "A")]]).2 rowEx [[("zone", "A")]] rfl).2
     ⟨[("zone", "A")], by decide, ("zone", "A"), by decide, by decide⟩⟩

/-- C8 counterexample: with the degenerate secret "*" (a key made of the mask
character), the console-emitted message still contains the secret, so the
claim's "the emitted console message contains no occurrence of the secret"
fails as universally stated. -/
theorem console_mask_leak :
    (RealtimeFetcher.emitLog ['*'] { msg := ['*'] }).2 = some ['*', '*', '*']
  ∧ ['*'] <:+: ['*', '*', '*'] := by
  constructor
  · simp [RealtimeFetcher.emitLog, LogObfuscator.filter, replaceAll, startsWith]
  · exact ⟨['*'], ['*'], rfl⟩

/-- C8 (amended): provided the API key secret is nonempty and does not contain
the mask character, every console-destined message is emitted with no
occurrence of the secret, while the file-destined copy of the same record is
the unmasked original. -/
theorem console_mask_no_secret (apiKey : List Char) (record : LogRecord)
    (hne : apiKey ≠ []) (hstar : '*' ∉ apiKey) :
    (∀ out, (RealtimeFetcher.emitLog apiKey record).2 = some out → ¬ apiKey <:+: out)
  ∧ (RealtimeFetcher.emitLog apiKey record).1 = record.msg := by
  constructor
  · intro out hout
    by_cases hm : record.msg.isEmpty
    · have hmsg : record.msg = [] := by
        cases hrec : record.msg with
        | nil => rfl
        | cons c cs => rw [hrec] at hm; simp [List.isEmpty] at hm
      simp [RealtimeFetcher.emitLog, LogObfuscator.filter, hm] at hout
      subst hout
      rw [hmsg]
      intro hinf
      have : apiKey = [] := by simpa using hinf
      exact hne this
    · simp [RealtimeFetcher.emitLog, LogObfuscator.filter, hm] at hout
      subst hout
      exact replaceAll_no_occurrence apiKey hne hstar record.msg
  · rfl

/-- C8 witness: for the nonempty, star-free secret "sec", logging a message
equal to the secret emits a console line that does not contain the secret,
while the file line is the unmasked original message. -/
theorem console_mask_no_secret_witness :
    (['s', 'e', 'c'] : List Char) ≠ []
  ∧ '*' ∉ (['s', 'e', 'c'] : List Char)
  ∧ ¬ (['s', 'e', 'c'] : List Char) <:+: ['*', '*', '*']
  ∧ (RealtimeFetcher.emitLog ['s', 'e', 'c'] { msg := ['s', 'e', 'c'] }).1
      = ['s', 'e', 'c'] :=
  ⟨by decide, by decide,
   (console_mask_no_secret ['s', 'e', 'c'] { msg := ['s', 'e', 'c'] }
       (by decide) (by decide)).1 ['*', '*', '*']
     (by simp [RealtimeFetcher.emitLog, LogObfuscator.filter, replaceAll, startsWith]),
   (console_mask_no_secret ['s', 'e', 'c'] { msg := ['s', 'e', 'c'] }
       (by decide) (by decide)).2⟩

/-- C9: the trip-updates normalizer copies `trip_id` and `route_id` verbatim
(an empty string stays the empty string), unlike the positions and alerts
normalizers, which map an empty identifier to the absent value. -/
theorem trip_ids_verbatim :
    (∀ tu : TripUpdate,
        (TripUpdatesFetcher.cleanTrip tu).trip_id = tu.trip.trip_id
          ∧ (TripUpdatesFetcher.cleanTrip tu).route_id = tu.trip.route_id)
  ∧ (∀ v : VehiclePosition, v.trip.trip_id = "" →
        (PositionsFetcher.cleanVehicle v).trip_id = none)
  ∧ (∀ i : EntitySelector, i.route_id = "" →
        (AlertsFetcher.informedRecord i).route_id = none) := by
  refine ⟨fun tu => ⟨rfl, rfl⟩, ?_, ?_⟩
  · intro v h; simp [PositionsFetcher.cleanVehicle, orNone, h]
  · intro i h; simp [AlertsFetcher.informedRecord, orNone, h]

/-- C9 witness: the concrete trip update with empty identifiers cleans to the
empty string (not the absent value), while the vehicle with an empty trip
identifier cleans to the absent value. -/
theorem trip_ids_verbatim_witness :
    (TripUpdatesFetcher.cleanTrip tripEx2).trip_id = ""
  ∧ (PositionsFetcher.cleanVehicle vehicleExEmpty).trip_id = none :=
  ⟨(trip_ids_verbatim.1 tripEx2).1, trip_ids_verbatim.2.1 vehicleExEmpty rfl⟩

/-- C10: the obfuscation filter returns `True` for every log record: it only
rewrites the message and never suppresses the record. -/
theorem obfuscator_filter_always_true (keywords : List (List Char)) (record : LogRecord) :
    (LogObfuscator.filter keywords record).2 = true := by
  unfold LogObfuscator.filter
  split <;> rfl
